import Mathlib

/-!
Shallow embedding of the hierarchical database-browsing screen of
rust-db-manager-tui (src/infrastructure/manager/data_base/manager_database.rs).

The dispatch methods (`manage`, `status`, `create_data_base`, `drop_data_base`,
`show_databases`, `select_database_panel`, `select_database`, `show_collections`,
`select_collection_panel`, `select_collection`, `show_elements`,
`select_element_panel`, `select_element`, `show_selected`, `translate_query`)
are translated directly from the Rust source. The modules the source file
references but whose code is outside the provided sources
(terminal_cursor.rs, terminal_option.rs, terminal_manager.rs, utils.rs,
path_interpeter.rs) are modelled from the specification and marked as such in
their doc comments.

Every dispatch method additionally returns a trace of the collaborator calls it
performed, so that the theorems can express that a transition made no
data-access service call. Asynchronous service calls are embedded as
already-resolved results carried by the injected `Service` record; this is
faithful because the driver awaits each call before rendering.
-/

/-- Action key constant, from the Rust source. -/
def HOME : String := "HOME"

/-- Action key constant, from the Rust source. -/
def STATUS : String := "STATUS"

/-- Sentinel action key for free-text input, from the Rust source. -/
def TEXT_INPUT : String := "TEXT_INPUT"

/-- Action key constant, from the Rust source. -/
def CREATE_DATABASE : String := "CREATE_DATABASE"

/-- Action key constant, from the Rust source. -/
def DROP_DATABASE : String := "DROP_DATABASE"

/-- Action key constant, from the Rust source. -/
def SHOW_DATABASES : String := "SHOW_DATABASES"

/-- Action key constant, from the Rust source. -/
def SELECT_DATABASE_PANEL : String := "SELECT_DATABASE_PANEL"

/-- Action key constant, from the Rust source. -/
def SELECT_DATABASE : String := "SELECT_DATABASE"

/-- Action key constant, from the Rust source. -/
def SHOW_COLLECTIONS : String := "SHOW_COLLECTIONS"

/-- Action key constant, from the Rust source. -/
def SELECT_COLLECTION_PANEL : String := "SELECT_COLLECTION_PANEL"

/-- Action key constant, from the Rust source. -/
def SELECT_COLLECTION : String := "SELECT_COLLECTION"

/-- Action key constant, from the Rust source. -/
def SHOW_ELEMENTS : String := "SHOW_ELEMENTS"

/-- Action key constant, from the Rust source. -/
def SELECT_ELEMENTS_PANEL : String := "SELECT_ELEMENTS_PANEL"

/-- Action key constant, from the Rust source. -/
def SELECT_ELEMENT : String := "SELECT_ELEMENT"

/-- Action key constant, from the Rust source. -/
def SHOW_SELECTED : String := "SHOW_SELECTED"

/-- Modelled from the spec: display attribute from the missing
terminal_manager.rs module (spec calls these display-only ANSI constants). -/
def ANSI_BOLD : String := "\x1b[1m"

/-- Modelled from the spec: display attribute from the missing
terminal_manager.rs module. -/
def ANSI_RESET : String := "\x1b[0m"

/-- Modelled from the spec: status-OK color from the missing
terminal_manager.rs module. -/
def ANSI_COLOR_GREEN : String := "\x1b[32m"

/-- Modelled from the spec: status-KO color from the missing
terminal_manager.rs module. -/
def ANSI_COLOR_RED : String := "\x1b[31m"

/-- Modelled from the spec: the data-access service collaborator, given by the
interface contract of spec section 6. Errors are represented by their
human-readable message, since the spec treats the error type as external and
the screen only ever renders its message. Each field holds the awaited result
of the corresponding asynchronous call. Queries are keyed by the data they
carry in the source: `list_collections` by the data base name, `find_all_lite`
by data base and collection, `find_query` by data base, collection and the
identifier chain of the filter. -/
structure Service where
  status : Except String Unit
  create_data_base : String → Except String String
  drop_data_base : String → Except String String
  list_data_bases : Except String (List String)
  list_collections : String → Except String (List String)
  find_all_lite : String → String → Except String (List String)
  find_query : String → String → List String → Except String (List String)

/-- One collaborator call performed during a transition. The constructors
record the arguments the source passes to the service; `translate_path` records
a hand-off to the path-interpreter collaborator. -/
inductive Call where
  | status : Call
  | create_data_base (name : String) : Call
  | drop_data_base (name : String) : Call
  | list_data_bases : Call
  | list_collections (dataBase : String) : Call
  | find_all_lite (dataBase collection : String) : Call
  | find_query (dataBase collection : String) (idChain : List String) : Call
  | translate_path (root : String) (fragments : List String) : Call
deriving Repr, DecidableEq

/-- The browsing screen state, from the Rust struct ManagerDatabase: the
injected service and the selection context (data base, collection, element). -/
structure ManagerDatabase where
  service : Service
  data_base : Option String
  collection : Option String
  element : Option (List String)

/-- Modelled from the spec: ActionRequest from the missing terminal_option.rs
module — a label, an action key (field `option`, matching the accessor used by
the source), positional arguments, and the target screen snapshot. -/
structure TerminalOption where
  label : String
  option : String
  args : List String
  target : ManagerDatabase

/-- Modelled from the spec: mirrors TerminalOption::from_args in the missing
terminal_option.rs module. -/
def TerminalOption.from_args (label action_key : String) (args : List String)
    (target : ManagerDatabase) : TerminalOption :=
  { label := label, option := action_key, args := args, target := target }

/-- Modelled from the spec: mirrors TerminalOption::from in the missing
terminal_option.rs module; the argument list is empty. -/
def TerminalOption.from_no_args (label action_key : String)
    (target : ManagerDatabase) : TerminalOption :=
  { label := label, option := action_key, args := [], target := target }

/-- Modelled from the spec: RenderState (TerminalCursor) from the missing
terminal_cursor.rs module — owner snapshot, display text, ordered options. -/
structure TerminalCursor where
  owner : ManagerDatabase
  text : String
  options : List TerminalOption

/-- Modelled from the spec: mirrors TerminalCursor::new — a cursor with the
given owner and header and no options yet. -/
def TerminalCursor.new (owner : ManagerDatabase) (header : String) :
    TerminalCursor :=
  { owner := owner, text := header, options := [] }

/-- Modelled from the spec: mirrors TerminalCursor::push — appends one option,
preserving display order. -/
def TerminalCursor.push (c : TerminalCursor) (o : TerminalOption) :
    TerminalCursor :=
  { c with options := c.options ++ [o] }

/-- Modelled from the spec: the default home-screen header produced by the
missing utils.rs module. Its exact wording is not observable from the provided
sources; the claims only require it to be a fixed function of the screen. -/
def ManagerDatabase.default_header (_ : ManagerDatabase) : String :=
  "Rust DB Manager"

/-- Modelled from the spec: mirrors info_headers from the missing utils.rs
module — the default header followed by an informational message, in the same
blank-line layout the source uses explicitly in its status method. -/
def ManagerDatabase.info_headers (m : ManagerDatabase) (message : String) :
    String :=
  m.default_header ++ "\n\n" ++ message

/-- Modelled from the spec: the standard home menu offered after every
transition (spec section 4.2 action table); the home option is always present,
as the error-handling design requires. Every option targets the given screen
snapshot and carries no arguments. -/
def home_options (m : ManagerDatabase) : List TerminalOption :=
  [TerminalOption.from_no_args "Home" HOME m,
   TerminalOption.from_no_args "Status" STATUS m,
   TerminalOption.from_no_args "Create data base" CREATE_DATABASE m,
   TerminalOption.from_no_args "Drop data base" DROP_DATABASE m,
   TerminalOption.from_no_args "Show data bases" SHOW_DATABASES m,
   TerminalOption.from_no_args "Select data base" SELECT_DATABASE_PANEL m,
   TerminalOption.from_no_args "Show collections" SHOW_COLLECTIONS m,
   TerminalOption.from_no_args "Select collection" SELECT_COLLECTION_PANEL m,
   TerminalOption.from_no_args "Show elements" SHOW_ELEMENTS m,
   TerminalOption.from_no_args "Select element" SELECT_ELEMENTS_PANEL m,
   TerminalOption.from_no_args "Show selected" SHOW_SELECTED m]

/-- Modelled from the spec: mirrors home from the missing utils.rs module — a
cursor owned by the screen with the given text and the standard home menu. -/
def ManagerDatabase.home (m : ManagerDatabase) (header : String) :
    TerminalCursor :=
  { owner := m, text := header, options := home_options m }

/-- Modelled from the spec: mirrors home_headers from the missing utils.rs
module — the home render with the default header. -/
def ManagerDatabase.home_headers (m : ManagerDatabase) : TerminalCursor :=
  m.home m.default_header

/-- Modelled from the spec: mirrors verify_database from the missing utils.rs
module. The source checks the selection before unwrapping it, so the check is
embedded as returning the verified data base name. -/
def verify_database (m : ManagerDatabase) : Except String String :=
  match m.data_base with
  | some db => Except.ok db
  | none => Except.error "No data base selected."

/-- Modelled from the spec: mirrors verify_collection from the missing utils.rs
module. Per the spec invariant, an operation requiring a collection must first
confirm the data base is set. -/
def verify_collection (m : ManagerDatabase) : Except String (String × String) :=
  match verify_database m with
  | Except.error e => Except.error e
  | Except.ok db =>
    match m.collection with
    | some coll => Except.ok (db, coll)
    | none => Except.error "No collection selected."

/-- Modelled from the spec: mirrors verify_element from the missing utils.rs
module, confirming the whole selection chain. -/
def verify_element (m : ManagerDatabase) :
    Except String (String × String × List String) :=
  match verify_collection m with
  | Except.error e => Except.error e
  | Except.ok (db, coll) =>
    match m.element with
    | some el => Except.ok (db, coll, el)
    | none => Except.error "No element selected."

/-- Modelled from the spec: mirrors reset_database from the missing utils.rs
module, following the cascade policy the spec fixes (clearing the data base
cascade-clears collection and element). -/
def ManagerDatabase.reset_database (m : ManagerDatabase) : ManagerDatabase :=
  { m with data_base := none, collection := none, element := none }

/-- Modelled from the spec: mirrors reset_collection from the missing utils.rs
module; clearing the collection cascade-clears the element. -/
def ManagerDatabase.reset_collection (m : ManagerDatabase) : ManagerDatabase :=
  { m with collection := none, element := none }

/-- Modelled from the spec: mirrors reset_element from the missing utils.rs
module. -/
def ManagerDatabase.reset_element (m : ManagerDatabase) : ManagerDatabase :=
  { m with element := none }

/-- Splitting a character list on a separator, with the semantics of the Rust
split method on string slices: n separators yield n plus one fragments, so the
empty input yields one empty fragment. The second argument accumulates the
current fragment in reverse. -/
def split_chars (sep : Char) : List Char → List Char → List (List Char)
  | [], acc => [acc.reverse]
  | c :: cs, acc =>
    if c = sep then acc.reverse :: split_chars sep cs []
    else split_chars sep cs (c :: acc)

/-- The split used by the source (Rust split on a one-character pattern),
embedded structurally so that it evaluates on concrete inputs. -/
def rust_split (s : String) (sep : Char) : List String :=
  (split_chars sep s.data []).map String.mk

/-- The trim used by the source (Rust trim): surrounding whitespace removed
from both ends, embedded structurally over the character data. -/
def rust_trim (s : String) : String :=
  String.mk
    (((s.data.dropWhile Char.isWhitespace).reverse.dropWhile
      Char.isWhitespace).reverse)

/-- From the source (status): probe the service and show an OK or KO banner
under the default header. -/
def ManagerDatabase.status (m : ManagerDatabase) : TerminalCursor × List Call :=
  let headers := m.default_header
  let message :=
    match m.service.status with
    | Except.ok _ => ANSI_COLOR_GREEN ++ ANSI_BOLD ++ " Status OK." ++ ANSI_RESET
    | Except.error _ => ANSI_COLOR_RED ++ ANSI_BOLD ++ " Status KO." ++ ANSI_RESET
  (m.home (headers ++ "\n\n" ++ message), [Call.status])

/-- From the source (create_data_base): with a first argument, trim it and ask
the service to create; otherwise show the cannot-create banner without any
service call. -/
def ManagerDatabase.create_data_base (m : ManagerDatabase)
    (option : TerminalOption) : TerminalCursor × List Call :=
  match option.args with
  | [] => (m.home (m.info_headers "Cannot create data base."), [])
  | a :: _ =>
    let data_base := rust_trim a
    match m.service.create_data_base data_base with
    | Except.error e =>
      (m.home (m.info_headers e), [Call.create_data_base data_base])
    | Except.ok name =>
      (m.home (m.info_headers ("Data base \x27" ++ name ++ "\x27 created")),
       [Call.create_data_base data_base])

/-- From the source (drop_data_base): with a data base selected, ask the
service to drop it; on success reset the selection context and report the
dropped name; without a selection show the cannot-drop banner and make no
service call. -/
def ManagerDatabase.drop_data_base (m : ManagerDatabase) :
    TerminalCursor × List Call :=
  match m.data_base with
  | none => (m.home (m.info_headers "Cannot drop data base."), [])
  | some db =>
    match m.service.drop_data_base db with
    | Except.error e => (m.home (m.info_headers e), [Call.drop_data_base db])
    | Except.ok name =>
      let m' := m.reset_database
      (m'.home (m'.info_headers ("Data base \x27" ++ name ++ "\x27 dropped")),
       [Call.drop_data_base db])

/-- From the source (show_databases): list the data bases, render each with the
bullet-and-bold item format, add a blank line after the header only when at
least one item exists; on failure the header is the error message. -/
def ManagerDatabase.show_databases (m : ManagerDatabase) :
    TerminalCursor × List Call :=
  let result := m.service.list_data_bases
  let header :=
    match result with
    | Except.error err => err
    | Except.ok _ =>
      m.info_headers "The repository contains the following data bases:"
  let vector := match result with | Except.ok v => v | Except.error _ => []
  let elements := vector.map (fun e => " - " ++ ANSI_BOLD ++ e ++ ANSI_RESET)
  let header := if elements.isEmpty then header else header ++ "\n"
  (m.home (header ++ "\n" ++ String.intercalate "\n" elements),
   [Call.list_data_bases])

/-- From the source (select_database_panel): list the data bases as selectable
options and always append the synthetic [None] option with no arguments. -/
def ManagerDatabase.select_database_panel (m : ManagerDatabase) :
    TerminalCursor × List Call :=
  let result := m.service.list_data_bases
  let header :=
    match result with
    | Except.error err => err
    | Except.ok _ => m.info_headers "Select one of the following data bases:"
  let vector := match result with | Except.ok v => v | Except.error _ => []
  let cursor := TerminalCursor.new m header
  let cursor := vector.foldl
    (fun c e => c.push (TerminalOption.from_args e SELECT_DATABASE [e] m)) cursor
  let cursor := cursor.push (TerminalOption.from_no_args "[None]" SELECT_DATABASE m)
  (cursor, [Call.list_data_bases])

/-- From the source (select_database): with a first argument set the data base
to it, otherwise reset it; re-render home either way. -/
def ManagerDatabase.select_database (m : ManagerDatabase)
    (option : TerminalOption) : TerminalCursor × List Call :=
  match option.args with
  | a :: _ => ({ m with data_base := some a }.home_headers, [])
  | [] => (m.reset_database.home_headers, [])

/-- From the source (show_collections): verify the data base selection first;
on failure show the precondition banner with no service call, otherwise list
the collections of the selected data base with the shared list rendering. -/
def ManagerDatabase.show_collections (m : ManagerDatabase) :
    TerminalCursor × List Call :=
  match verify_database m with
  | Except.error e => (m.home (m.info_headers e), [])
  | Except.ok db =>
    let result := m.service.list_collections db
    let header :=
      match result with
      | Except.error err => err
      | Except.ok _ =>
        m.info_headers "The repository contains the following collections:"
    let vector := match result with | Except.ok v => v | Except.error _ => []
    let elements := vector.map (fun e => " - " ++ ANSI_BOLD ++ e ++ ANSI_RESET)
    let header := if elements.isEmpty then header else header ++ "\n"
    (m.home (header ++ "\n" ++ String.intercalate "\n" elements),
     [Call.list_collections db])

/-- From the source (select_collection_panel): verify the data base selection;
then list the collections as options, always appending the synthetic [None]
option with no arguments, even when the listing failed. -/
def ManagerDatabase.select_collection_panel (m : ManagerDatabase) :
    TerminalCursor × List Call :=
  match verify_database m with
  | Except.error e => (m.home (m.info_headers e), [])
  | Except.ok db =>
    let result := m.service.list_collections db
    let header :=
      match result with
      | Except.error err => err
      | Except.ok _ => m.info_headers "Select one of the following collections:"
    let vector := match result with | Except.ok v => v | Except.error _ => []
    let cursor := TerminalCursor.new m header
    let cursor := vector.foldl
      (fun c e => c.push (TerminalOption.from_args e SELECT_COLLECTION [e] m))
      cursor
    let cursor :=
      cursor.push (TerminalOption.from_no_args "[None]" SELECT_COLLECTION m)
    (cursor, [Call.list_collections db])

/-- From the source (select_collection): with a first argument set the
collection, otherwise reset it; re-render home. -/
def ManagerDatabase.select_collection (m : ManagerDatabase)
    (option : TerminalOption) : TerminalCursor × List Call :=
  match option.args with
  | a :: _ => ({ m with collection := some a }.home_headers, [])
  | [] => (m.reset_collection.home_headers, [])

/-- From the source (show_elements): verify the collection selection first; on
failure show the precondition banner with no service call, otherwise list the
lightweight element identifiers with the shared list rendering. -/
def ManagerDatabase.show_elements (m : ManagerDatabase) :
    TerminalCursor × List Call :=
  match verify_collection m with
  | Except.error e => (m.home (m.info_headers e), [])
  | Except.ok (db, coll) =>
    let result := m.service.find_all_lite db coll
    let header :=
      match result with
      | Except.error err => err
      | Except.ok _ =>
        m.info_headers "The repository contains the following items:"
    let vector := match result with | Except.ok v => v | Except.error _ => []
    let elements := vector.map (fun e => " - " ++ ANSI_BOLD ++ e ++ ANSI_RESET)
    let header := if elements.isEmpty then header else header ++ "\n"
    (m.home (header ++ "\n" ++ String.intercalate "\n" elements),
     [Call.find_all_lite db coll])

/-- From the source (select_element_panel): verify the collection selection;
then list the elements as options, always appending the synthetic [None]
option with no arguments. -/
def ManagerDatabase.select_element_panel (m : ManagerDatabase) :
    TerminalCursor × List Call :=
  match verify_collection m with
  | Except.error e => (m.home (m.info_headers e), [])
  | Except.ok (db, coll) =>
    let result := m.service.find_all_lite db coll
    let header :=
      match result with
      | Except.error err => err
      | Except.ok _ => m.info_headers "Select one of the following elements:"
    let vector := match result with | Except.ok v => v | Except.error _ => []
    let cursor := TerminalCursor.new m header
    let cursor := vector.foldl
      (fun c e => c.push (TerminalOption.from_args e SELECT_ELEMENT [e] m))
      cursor
    let cursor :=
      cursor.push (TerminalOption.from_no_args "[None]" SELECT_ELEMENT m)
    (cursor, [Call.find_all_lite db coll])

/-- From the source (select_element): with a first argument set the element to
the single-entry identifier chain holding it, otherwise reset it. -/
def ManagerDatabase.select_element (m : ManagerDatabase)
    (option : TerminalOption) : TerminalCursor × List Call :=
  match option.args with
  | a :: _ => ({ m with element := some [a] }.home_headers, [])
  | [] => (m.reset_element.home_headers, [])

/-- From the source (show_selected): verify the element selection first; on
failure show the precondition banner with no service call. Otherwise query the
full elements. Exactly one match is rendered verbatim under the Item header;
any other count is rendered under the Items header with a single-space bold
item format joined by blank lines. The misspelling in the query-failure banner
is present in the source. -/
def ManagerDatabase.show_selected (m : ManagerDatabase) :
    TerminalCursor × List Call :=
  match verify_element m with
  | Except.error e => (m.home (m.info_headers e), [])
  | Except.ok (db, coll, el) =>
    match m.service.find_query db coll el with
    | Except.error e =>
      (m.home (m.info_headers ("Cannot find enlement: " ++ e)),
       [Call.find_query db coll el])
    | Except.ok elements =>
      if elements.length == 1 then
        (m.home (m.info_headers "Item:" ++ "\n\n" ++ elements.headD ""),
         [Call.find_query db coll el])
      else
        let elements := elements.map (fun e => " " ++ ANSI_BOLD ++ e ++ ANSI_RESET)
        (m.home (m.info_headers "Items:" ++ "\n\n" ++
          String.intercalate "\n\n" elements),
         [Call.find_query db coll el])

/-- Modelled from the spec: mirrors translate_path, the hand-off to the
path-interpreter collaborator in the missing utils.rs and path_interpeter.rs
modules. Per the spec contract the fragments are trimmed of surrounding
whitespace and the resolution itself is an injected strategy mapping the root
selector, the fragments and the selection context to a render state. -/
def translate_path (resolve : String → List String → ManagerDatabase → TerminalCursor)
    (m : ManagerDatabase) (first : String) (fragments : List String) :
    TerminalCursor × List Call :=
  let fragments := fragments.map rust_trim
  (resolve first fragments m, [Call.translate_path first fragments])

/-- From the source (translate_query): with no argument re-render home. With an
argument, split it on the greater-than delimiter, trim the first fragment, and
forward to the path interpreter when it is empty or the wildcard; any other
root selector re-renders home. -/
def ManagerDatabase.translate_query
    (resolve : String → List String → ManagerDatabase → TerminalCursor)
    (m : ManagerDatabase) (option : TerminalOption) :
    TerminalCursor × List Call :=
  match option.args with
  | [] => (m.home_headers, [])
  | a :: _ =>
    match rust_split a '>' with
    | [] => (m.home_headers, [])
    | f :: fragments =>
      let first := rust_trim f
      if first = "" ∨ first = "*" then
        translate_path resolve m first fragments
      else
        (m.home_headers, [])

/-- From the source (manage): the dispatch over the closed action-key set. The
source has a panicking todo on any other key; that fatal outcome is embedded as
the none result. -/
def manage (resolve : String → List String → ManagerDatabase → TerminalCursor)
    (m : ManagerDatabase) (option : TerminalOption) :
    Option (TerminalCursor × List Call) :=
  if option.option = HOME then some (m.home m.default_header, [])
  else if option.option = STATUS then some m.status
  else if option.option = TEXT_INPUT then some (m.translate_query resolve option)
  else if option.option = CREATE_DATABASE then some (m.create_data_base option)
  else if option.option = DROP_DATABASE then some m.drop_data_base
  else if option.option = SHOW_DATABASES then some m.show_databases
  else if option.option = SELECT_DATABASE_PANEL then some m.select_database_panel
  else if option.option = SELECT_DATABASE then some (m.select_database option)
  else if option.option = SHOW_COLLECTIONS then some m.show_collections
  else if option.option = SELECT_COLLECTION_PANEL then some m.select_collection_panel
  else if option.option = SELECT_COLLECTION then some (m.select_collection option)
  else if option.option = SHOW_ELEMENTS then some m.show_elements
  else if option.option = SELECT_ELEMENTS_PANEL then some m.select_element_panel
  else if option.option = SELECT_ELEMENT then some (m.select_element option)
  else if option.option = SHOW_SELECTED then some m.show_selected
  else none

/-- The closed action-key set the screen declares (spec section 6). -/
def action_keys : List String :=
  [HOME, STATUS, TEXT_INPUT, CREATE_DATABASE, DROP_DATABASE, SHOW_DATABASES,
   SELECT_DATABASE_PANEL, SELECT_DATABASE, SHOW_COLLECTIONS,
   SELECT_COLLECTION_PANEL, SELECT_COLLECTION, SHOW_ELEMENTS,
   SELECT_ELEMENTS_PANEL, SELECT_ELEMENT, SHOW_SELECTED]

/-- Concrete healthy service used to instantiate the theorems. -/
def svc_demo : Service where
  status := Except.ok ()
  create_data_base := fun n => Except.ok n
  drop_data_base := fun n => Except.ok n
  list_data_bases := Except.ok ["alpha", "beta"]
  list_collections := fun _ => Except.ok ["people", "orders"]
  find_all_lite := fun _ _ => Except.ok ["id1"]
  find_query := fun _ _ el => Except.ok (el.map (fun i => "doc " ++ i))

/-- Concrete failing service used to instantiate the error branches; its full
query succeeds with zero matches. -/
def svc_err : Service where
  status := Except.error "down"
  create_data_base := fun _ => Except.error "create failed"
  drop_data_base := fun _ => Except.error "drop failed"
  list_data_bases := Except.error "list failed"
  list_collections := fun _ => Except.error "collections failed"
  find_all_lite := fun _ _ => Except.error "lite failed"
  find_query := fun _ _ _ => Except.ok []

/-- Browser with an empty selection context. -/
def mgr_empty : ManagerDatabase :=
  { service := svc_demo, data_base := none, collection := none, element := none }

/-- Browser with the full selection chain set. -/
def mgr_full : ManagerDatabase :=
  { service := svc_demo, data_base := some "alpha", collection := some "people",
    element := some ["id1"] }

/-- Browser whose selected element resolves to two matches. -/
def mgr_multi : ManagerDatabase :=
  { service := svc_demo, data_base := some "alpha", collection := some "people",
    element := some ["id1", "id2"] }

/-- Browser over the failing service with the full selection chain set. -/
def mgr_err_full : ManagerDatabase :=
  { service := svc_err, data_base := some "alpha", collection := some "people",
    element := some ["id1"] }

/-- Trivial path-resolution strategy used to instantiate the theorems. -/
def resolve_demo : String → List String → ManagerDatabase → TerminalCursor :=
  fun _ _ m => m.home_headers

/-- Pushing an option appends it to the option list. -/
theorem options_push (c : TerminalCursor) (o : TerminalOption) :
    (c.push o).options = c.options ++ [o] := rfl

/-- A fresh cursor has no options. -/
theorem options_new (m : ManagerDatabase) (h : String) :
    (TerminalCursor.new m h).options = [] := rfl

/-- Options accumulated by the panel-building fold: pushing one option per
listed name appends the mapped options in order. -/
theorem foldl_push_options (l : List String) (c : TerminalCursor)
    (f : String → TerminalOption) :
    (l.foldl (fun c e => c.push (f e)) c).options = c.options ++ l.map f := by
  induction l generalizing c with
  | nil => simp
  | cons a t ih =>
    rw [List.foldl_cons, ih]
    simp [TerminalCursor.push]

/-- Claim C1: dispatching SELECT_DATABASE with an empty argument list clears
the data base selection, and with first argument x it sets the data base to x;
and in every state without a data base selected, SHOW_COLLECTIONS produces the
precondition-error banner and performs no data-access service call. -/
theorem select_database_then_show_collections
    (m : ManagerDatabase) (opt : TerminalOption) :
    (opt.args = [] → (m.select_database opt).1.owner.data_base = none) ∧
    (∀ x rest, opt.args = x :: rest →
      (m.select_database opt).1.owner.data_base = some x) ∧
    (m.data_base = none →
      m.show_collections =
        (m.home (m.info_headers "No data base selected."), [])) := by
  refine ⟨fun h => ?_, fun x rest h => ?_, fun h => ?_⟩
  · simp [ManagerDatabase.select_database, h, ManagerDatabase.home_headers,
      ManagerDatabase.home, ManagerDatabase.reset_database]
  · simp [ManagerDatabase.select_database, h, ManagerDatabase.home_headers,
      ManagerDatabase.home]
  · simp [ManagerDatabase.show_collections, verify_database, h]

/-- Instantiation of the C1 theorem at concrete inputs. -/
theorem select_database_then_show_collections_witness :
    (mgr_empty.select_database
      (TerminalOption.from_no_args "[None]" SELECT_DATABASE mgr_empty)).1.owner.data_base
        = none ∧
    (mgr_empty.select_database
      (TerminalOption.from_args "alpha" SELECT_DATABASE ["alpha"] mgr_empty)).1.owner.data_base
        = some "alpha" ∧
    mgr_empty.show_collections =
      (mgr_empty.home (mgr_empty.info_headers "No data base selected."), []) := by
  refine ⟨?_, ?_, ?_⟩
  · exact (select_database_then_show_collections mgr_empty
      (TerminalOption.from_no_args "[None]" SELECT_DATABASE mgr_empty)).1 rfl
  · exact (select_database_then_show_collections mgr_empty
      (TerminalOption.from_args "alpha" SELECT_DATABASE ["alpha"] mgr_empty)).2.1
      "alpha" [] rfl
  · exact (select_database_then_show_collections mgr_empty
      (TerminalOption.from_no_args "x" HOME mgr_empty)).2.2 rfl

/-- Claim C2: every operation with a selection precondition, dispatched in a
state where the prerequisite selection is missing, renders the error banner
built from the failing precondition message, makes no data-access service
call, leaves the selection context unchanged (the banner render is owned by
the unchanged screen), and does not abort the loop (the dispatch returns a
cursor rather than the fatal none). -/
theorem precondition_failures_recover_in_place
    (resolve : String → List String → ManagerDatabase → TerminalCursor)
    (m tgt : ManagerDatabase) (lbl : String) (args : List String) :
    (m.data_base = none →
      manage resolve m ⟨lbl, DROP_DATABASE, args, tgt⟩ =
        some (m.home (m.info_headers "Cannot drop data base."), []) ∧
      manage resolve m ⟨lbl, SHOW_COLLECTIONS, args, tgt⟩ =
        some (m.home (m.info_headers "No data base selected."), []) ∧
      manage resolve m ⟨lbl, SELECT_COLLECTION_PANEL, args, tgt⟩ =
        some (m.home (m.info_headers "No data base selected."), [])) ∧
    (m.collection = none → ∀ v, verify_collection m ≠ Except.ok v) ∧
    (∀ e, verify_collection m = Except.error e →
      manage resolve m ⟨lbl, SHOW_ELEMENTS, args, tgt⟩ =
        some (m.home (m.info_headers e), []) ∧
      manage resolve m ⟨lbl, SELECT_ELEMENTS_PANEL, args, tgt⟩ =
        some (m.home (m.info_headers e), [])) ∧
    (m.element = none → ∀ v, verify_element m ≠ Except.ok v) ∧
    (∀ e, verify_element m = Except.error e →
      manage resolve m ⟨lbl, SHOW_SELECTED, args, tgt⟩ =
        some (m.home (m.info_headers e), [])) ∧
    (∀ h, (ManagerDatabase.home m h).owner = m) := by
  refine ⟨fun h => ⟨?_, ?_, ?_⟩, fun h v => ?_, fun e he => ⟨?_, ?_⟩,
    fun h v => ?_, fun e he => ?_, fun h => rfl⟩
  · have hm : manage resolve m ⟨lbl, DROP_DATABASE, args, tgt⟩ =
        some m.drop_data_base := rfl
    rw [hm]
    simp [ManagerDatabase.drop_data_base, h]
  · have hm : manage resolve m ⟨lbl, SHOW_COLLECTIONS, args, tgt⟩ =
        some m.show_collections := rfl
    rw [hm]
    simp [ManagerDatabase.show_collections, verify_database, h]
  · have hm : manage resolve m ⟨lbl, SELECT_COLLECTION_PANEL, args, tgt⟩ =
        some m.select_collection_panel := rfl
    rw [hm]
    simp [ManagerDatabase.select_collection_panel, verify_database, h]
  · unfold verify_collection
    cases hv : verify_database m with
    | error e => simp
    | ok db => simp [h]
  · have hm : manage resolve m ⟨lbl, SHOW_ELEMENTS, args, tgt⟩ =
        some m.show_elements := rfl
    rw [hm]
    simp [ManagerDatabase.show_elements, he]
  · have hm : manage resolve m ⟨lbl, SELECT_ELEMENTS_PANEL, args, tgt⟩ =
        some m.select_element_panel := rfl
    rw [hm]
    simp [ManagerDatabase.select_element_panel, he]
  · unfold verify_element
    cases hv : verify_collection m with
    | error e => simp
    | ok p => simp [h]
  · have hm : manage resolve m ⟨lbl, SHOW_SELECTED, args, tgt⟩ =
        some m.show_selected := rfl
    rw [hm]
    simp [ManagerDatabase.show_selected, he]

/-- Instantiation of the C2 theorem at concrete inputs: all six guarded
operations dispatched with an empty selection context. -/
theorem precondition_failures_recover_in_place_witness :
    manage resolve_demo mgr_empty ⟨"x", DROP_DATABASE, [], mgr_empty⟩ =
      some (mgr_empty.home (mgr_empty.info_headers "Cannot drop data base."), []) ∧
    manage resolve_demo mgr_empty ⟨"x", SHOW_COLLECTIONS, [], mgr_empty⟩ =
      some (mgr_empty.home (mgr_empty.info_headers "No data base selected."), []) ∧
    manage resolve_demo mgr_empty ⟨"x", SELECT_COLLECTION_PANEL, [], mgr_empty⟩ =
      some (mgr_empty.home (mgr_empty.info_headers "No data base selected."), []) ∧
    manage resolve_demo mgr_empty ⟨"x", SHOW_ELEMENTS, [], mgr_empty⟩ =
      some (mgr_empty.home (mgr_empty.info_headers "No data base selected."), []) ∧
    manage resolve_demo mgr_empty ⟨"x", SELECT_ELEMENTS_PANEL, [], mgr_empty⟩ =
      some (mgr_empty.home (mgr_empty.info_headers "No data base selected."), []) ∧
    manage resolve_demo mgr_empty ⟨"x", SHOW_SELECTED, [], mgr_empty⟩ =
      some (mgr_empty.home (mgr_empty.info_headers "No data base selected."), []) := by
  obtain ⟨h1, h2, h3, h4, h5, h6⟩ :=
    precondition_failures_recover_in_place resolve_demo mgr_empty mgr_empty "x" []
  refine ⟨(h1 rfl).1, (h1 rfl).2.1, (h1 rfl).2.2, ?_, ?_, ?_⟩
  · exact (h3 "No data base selected." rfl).1
  · exact (h3 "No data base selected." rfl).2
  · exact h5 "No data base selected." rfl

/-- Claim C3: with the element selection resolving to exactly one match,
SHOW_SELECTED renders that single item verbatim with no separators and no bold
decoration; with two or more matches it renders all items joined by a
blank-line separator with the bold decoration applied to each item. -/
theorem show_selected_single_vs_multiple
    (m : ManagerDatabase) (db coll : String) (el : List String)
    (hdb : m.data_base = some db) (hc : m.collection = some coll)
    (he : m.element = some el) :
    (∀ x, m.service.find_query db coll el = Except.ok [x] →
      m.show_selected =
        (m.home (m.info_headers "Item:" ++ "\n\n" ++ x),
         [Call.find_query db coll el])) ∧
    (∀ xs, m.service.find_query db coll el = Except.ok xs → 2 ≤ xs.length →
      m.show_selected =
        (m.home (m.info_headers "Items:" ++ "\n\n" ++
          String.intercalate "\n\n"
            (xs.map (fun e => " " ++ ANSI_BOLD ++ e ++ ANSI_RESET))),
         [Call.find_query db coll el])) := by
  have hv : verify_element m = Except.ok (db, coll, el) := by
    simp [verify_element, verify_collection, verify_database, hdb, hc, he]
  refine ⟨fun x hq => ?_, fun xs hq hlen => ?_⟩
  · simp [ManagerDatabase.show_selected, hv, hq]
  · have hne : (xs.length == 1) = false := by
      simp only [beq_eq_false_iff_ne, ne_eq]
      omega
    simp [ManagerDatabase.show_selected, hv, hq, hne]

/-- Instantiation of the C3 theorem: one match for the single-element chain,
two matches for the two-element chain. -/
theorem show_selected_single_vs_multiple_witness :
    mgr_full.show_selected =
      (mgr_full.home (mgr_full.info_headers "Item:" ++ "\n\n" ++ "doc id1"),
       [Call.find_query "alpha" "people" ["id1"]]) ∧
    mgr_multi.show_selected =
      (mgr_multi.home (mgr_multi.info_headers "Items:" ++ "\n\n" ++
        String.intercalate "\n\n"
          (["doc id1", "doc id2"].map (fun e => " " ++ ANSI_BOLD ++ e ++ ANSI_RESET))),
       [Call.find_query "alpha" "people" ["id1", "id2"]]) := by
  constructor
  · exact (show_selected_single_vs_multiple mgr_full "alpha" "people" ["id1"]
      rfl rfl rfl).1 "doc id1" rfl
  · exact (show_selected_single_vs_multiple mgr_multi "alpha" "people"
      ["id1", "id2"] rfl rfl rfl).2 ["doc id1", "doc id2"] rfl (by simp)

/-- Claim C4: with a data base selected, SELECT_COLLECTION_PANEL yields one
option per listed collection plus the synthetic [None] option with an empty
argument list as the last entry, so the count is the number of collections
plus one; on a service failure the panel holds exactly the [None] option. -/
theorem select_collection_panel_option_count
    (m : ManagerDatabase) (db : String) (hdb : m.data_base = some db) :
    (∀ cols, m.service.list_collections db = Except.ok cols →
      m.select_collection_panel.1.options =
        cols.map (fun e => TerminalOption.from_args e SELECT_COLLECTION [e] m) ++
          [TerminalOption.from_no_args "[None]" SELECT_COLLECTION m] ∧
      m.select_collection_panel.1.options.length = cols.length + 1) ∧
    (∀ e, m.service.list_collections db = Except.error e →
      m.select_collection_panel.1.options =
        [TerminalOption.from_no_args "[None]" SELECT_COLLECTION m]) := by
  have hv : verify_database m = Except.ok db := by
    simp [verify_database, hdb]
  refine ⟨fun cols hq => ?_, fun e hq => ?_⟩
  · have hopts : m.select_collection_panel.1.options =
        cols.map (fun e => TerminalOption.from_args e SELECT_COLLECTION [e] m) ++
          [TerminalOption.from_no_args "[None]" SELECT_COLLECTION m] := by
      simp [ManagerDatabase.select_collection_panel, hv, hq,
        options_push, foldl_push_options, options_new]
    exact ⟨hopts, by simp [hopts]⟩
  · simp [ManagerDatabase.select_collection_panel, hv, hq,
      options_push, options_new]

/-- Instantiation of the C4 theorem: two listed collections give three options
with [None] last; the failing service gives the lone [None] option. -/
theorem select_collection_panel_option_count_witness :
    mgr_full.select_collection_panel.1.options =
      ["people", "orders"].map
        (fun e => TerminalOption.from_args e SELECT_COLLECTION [e] mgr_full) ++
        [TerminalOption.from_no_args "[None]" SELECT_COLLECTION mgr_full] ∧
    mgr_full.select_collection_panel.1.options.length = 3 ∧
    mgr_err_full.select_collection_panel.1.options =
      [TerminalOption.from_no_args "[None]" SELECT_COLLECTION mgr_err_full] := by
  refine ⟨?_, ?_, ?_⟩
  · exact ((select_collection_panel_option_count mgr_full "alpha" rfl).1
      ["people", "orders"] rfl).1
  · exact ((select_collection_panel_option_count mgr_full "alpha" rfl).1
      ["people", "orders"] rfl).2
  · exact (select_collection_panel_option_count mgr_err_full "alpha" rfl).2
      "collections failed" rfl

/-- Claim C5: with a data base selected and a successful service drop, the data
base selection is cleared, the collection and element are cascade-cleared with
it, and the banner reports the dropped data base name returned by the
service. -/
theorem drop_data_base_clears_context
    (m : ManagerDatabase) (db name : String)
    (hdb : m.data_base = some db)
    (hs : m.service.drop_data_base db = Except.ok name) :
    m.drop_data_base =
      (m.reset_database.home
        (m.reset_database.info_headers
          ("Data base \x27" ++ name ++ "\x27 dropped")),
       [Call.drop_data_base db]) ∧
    m.drop_data_base.1.owner.data_base = none ∧
    m.drop_data_base.1.owner.collection = none ∧
    m.drop_data_base.1.owner.element = none := by
  have hmain : m.drop_data_base =
      (m.reset_database.home
        (m.reset_database.info_headers
          ("Data base \x27" ++ name ++ "\x27 dropped")),
       [Call.drop_data_base db]) := by
    simp [ManagerDatabase.drop_data_base, hdb, hs]
  refine ⟨hmain, ?_, ?_, ?_⟩ <;>
    simp [hmain, ManagerDatabase.home, ManagerDatabase.reset_database]

/-- Instantiation of the C5 theorem on the fully selected browser. -/
theorem drop_data_base_clears_context_witness :
    mgr_full.drop_data_base =
      (mgr_full.reset_database.home
        (mgr_full.reset_database.info_headers
          ("Data base \x27" ++ "alpha" ++ "\x27 dropped")),
       [Call.drop_data_base "alpha"]) ∧
    mgr_full.drop_data_base.1.owner.data_base = none ∧
    mgr_full.drop_data_base.1.owner.collection = none ∧
    mgr_full.drop_data_base.1.owner.element = none :=
  drop_data_base_clears_context mgr_full "alpha" "alpha" rfl rfl

/-- Claim C6: free-text input that splits into a single fragment (no
greater-than delimiter), is non-empty after trimming and is not the wildcard,
dispatched through the TEXT_INPUT sentinel, re-renders the home view of the
unchanged screen and performs no data-access service call. -/
theorem free_text_no_delimiter_noop
    (resolve : String → List String → ManagerDatabase → TerminalCursor)
    (m tgt : ManagerDatabase) (lbl s : String) (rest : List String)
    (hsplit : rust_split s '>' = [s])
    (hne : rust_trim s ≠ "") (hstar : rust_trim s ≠ "*") :
    manage resolve m ⟨lbl, TEXT_INPUT, s :: rest, tgt⟩ =
      some (m.home_headers, []) ∧
    m.home_headers.owner = m := by
  have hm : manage resolve m ⟨lbl, TEXT_INPUT, s :: rest, tgt⟩ =
      some (m.translate_query resolve ⟨lbl, TEXT_INPUT, s :: rest, tgt⟩) := rfl
  rw [hm]
  refine ⟨?_, rfl⟩
  simp [ManagerDatabase.translate_query, hsplit, hne, hstar]

/-- Instantiation of the C6 theorem on the input foo. -/
theorem free_text_no_delimiter_noop_witness :
    manage resolve_demo mgr_full ⟨"foo", TEXT_INPUT, ["foo"], mgr_full⟩ =
      some (mgr_full.home_headers, []) ∧
    mgr_full.home_headers.owner = mgr_full :=
  free_text_no_delimiter_noop resolve_demo mgr_full mgr_full "foo" "foo" []
    (by decide) (by decide) (by decide)

/-- Claim C7: free-text input is split on the greater-than delimiter; the
first fragment is trimmed, and when it is the empty string or the wildcard it
is forwarded with the remaining fragments, each trimmed of surrounding
whitespace, to the path interpreter; any other trimmed first fragment is a
no-op home re-render with no collaborator call. -/
theorem translate_query_splits_and_trims
    (resolve : String → List String → ManagerDatabase → TerminalCursor)
    (m tgt : ManagerDatabase) (lbl s : String) (rest : List String)
    (f : String) (fs : List String)
    (hsplit : rust_split s '>' = f :: fs) :
    m.translate_query resolve ⟨lbl, TEXT_INPUT, s :: rest, tgt⟩ =
      (if rust_trim f = "" ∨ rust_trim f = "*" then
        (resolve (rust_trim f) (fs.map rust_trim) m,
         [Call.translate_path (rust_trim f) (fs.map rust_trim)])
      else (m.home_headers, [])) := by
  by_cases h : rust_trim f = "" ∨ rust_trim f = "*"
  · simp [ManagerDatabase.translate_query, hsplit, translate_path, h]
  · obtain ⟨h1, h2⟩ := not_or.mp h
    simp [ManagerDatabase.translate_query, hsplit, h, h1, h2]

/-- Instantiation of the C7 theorem: a wildcard path whose padded fragments are
forwarded trimmed. -/
theorem translate_query_splits_and_trims_witness :
    mgr_full.translate_query resolve_demo
      ⟨"q", TEXT_INPUT, [" * > alpha >people"], mgr_full⟩ =
      (resolve_demo "*" ["alpha", "people"] mgr_full,
       [Call.translate_path "*" ["alpha", "people"]]) := by
  have h := translate_query_splits_and_trims resolve_demo mgr_full mgr_full "q"
    " * > alpha >people" [] " * " [" alpha ", "people"] (by decide)
  have ht : rust_trim " * " = "*" := by decide
  have hf : List.map rust_trim [" alpha ", "people"] = ["alpha", "people"] := by
    decide
  rw [h, ht, hf]
  simp

/-- Claim C8: the dispatch is total over the 15 declared action keys — it
returns a cursor exactly for them — and any other key reaches the fatal
programming-error branch, embedded as the none result. -/
theorem manage_total_on_declared_keys
    (resolve : String → List String → ManagerDatabase → TerminalCursor)
    (m : ManagerDatabase) (opt : TerminalOption) :
    (manage resolve m opt).isSome = true ↔ opt.option ∈ action_keys := by
  have key_none : opt.option ∉ action_keys → manage resolve m opt = none := by
    intro hmem
    simp only [action_keys, List.mem_cons, List.not_mem_nil, or_false,
      not_or] at hmem
    obtain ⟨n1, n2, n3, n4, n5, n6, n7, n8, n9, n10, n11, n12, n13, n14,
      n15⟩ := hmem
    simp [manage, n1, n2, n3, n4, n5, n6, n7, n8, n9, n10, n11, n12, n13,
      n14, n15]
  constructor
  · intro h
    by_contra hmem
    rw [key_none hmem] at h
    simp at h
  · intro hmem
    simp only [action_keys, List.mem_cons, List.not_mem_nil, or_false] at hmem
    rcases hmem with h | h | h | h | h | h | h | h | h | h | h | h | h | h | h <;>
      simp [manage, h, HOME, STATUS, TEXT_INPUT, CREATE_DATABASE,
        DROP_DATABASE, SHOW_DATABASES, SELECT_DATABASE_PANEL, SELECT_DATABASE,
        SHOW_COLLECTIONS, SELECT_COLLECTION_PANEL, SELECT_COLLECTION,
        SHOW_ELEMENTS, SELECT_ELEMENTS_PANEL, SELECT_ELEMENT, SHOW_SELECTED]

/-- Joining an empty item list yields the empty string. -/
theorem intercalate_nil (sep : String) : sep.intercalate [] = "" := rfl

/-- Claim C9: every listing transition renders each returned item prefixed by
the bullet and the bold decoration, joins the items with newlines, and inserts
an extra blank line after the header exactly when at least one item exists; on
a service failure the header is the error message and no items are listed. -/
theorem list_rendering_rule (m : ManagerDatabase) (db coll : String) :
    (∀ xs, m.service.list_data_bases = Except.ok xs →
      m.show_databases.1.text =
        (if xs = [] then
          m.info_headers "The repository contains the following data bases:"
         else
          m.info_headers "The repository contains the following data bases:"
            ++ "\n") ++
        "\n" ++ String.intercalate "\n"
          (xs.map (fun e => " - " ++ ANSI_BOLD ++ e ++ ANSI_RESET))) ∧
    (∀ e, m.service.list_data_bases = Except.error e →
      m.show_databases.1.text = e ++ "\n") ∧
    (m.data_base = some db →
      (∀ xs, m.service.list_collections db = Except.ok xs →
        m.show_collections.1.text =
          (if xs = [] then
            m.info_headers "The repository contains the following collections:"
           else
            m.info_headers "The repository contains the following collections:"
              ++ "\n") ++
          "\n" ++ String.intercalate "\n"
            (xs.map (fun e => " - " ++ ANSI_BOLD ++ e ++ ANSI_RESET))) ∧
      (∀ e, m.service.list_collections db = Except.error e →
        m.show_collections.1.text = e ++ "\n")) ∧
    (m.data_base = some db → m.collection = some coll →
      (∀ xs, m.service.find_all_lite db coll = Except.ok xs →
        m.show_elements.1.text =
          (if xs = [] then
            m.info_headers "The repository contains the following items:"
           else
            m.info_headers "The repository contains the following items:"
              ++ "\n") ++
          "\n" ++ String.intercalate "\n"
            (xs.map (fun e => " - " ++ ANSI_BOLD ++ e ++ ANSI_RESET))) ∧
      (∀ e, m.service.find_all_lite db coll = Except.error e →
        m.show_elements.1.text = e ++ "\n")) := by
  refine ⟨fun xs hq => ?_, fun e hq => ?_,
    fun hdb => ⟨fun xs hq => ?_, fun e hq => ?_⟩,
    fun hdb hc => ⟨fun xs hq => ?_, fun e hq => ?_⟩⟩
  · rcases xs with _ | ⟨x, rest⟩ <;>
      simp [ManagerDatabase.show_databases, hq, ManagerDatabase.home]
  · simp [ManagerDatabase.show_databases, hq, ManagerDatabase.home,
      intercalate_nil, String.append_empty]
  · rcases xs with _ | ⟨x, rest⟩ <;>
      simp [ManagerDatabase.show_collections, verify_database, hdb, hq,
        ManagerDatabase.home]
  · simp [ManagerDatabase.show_collections, verify_database, hdb, hq,
      ManagerDatabase.home, intercalate_nil, String.append_empty]
  · rcases xs with _ | ⟨x, rest⟩ <;>
      simp [ManagerDatabase.show_elements, verify_collection, verify_database,
        hdb, hc, hq, ManagerDatabase.home]
  · simp [ManagerDatabase.show_elements, verify_collection, verify_database,
      hdb, hc, hq, ManagerDatabase.home, intercalate_nil, String.append_empty]

/-- Instantiation of the C9 theorem: the healthy service on the three listing
transitions and the failing service on their error branches. -/
theorem list_rendering_rule_witness :
    mgr_full.show_databases.1.text =
      (if (["alpha", "beta"] : List String) = [] then
        mgr_full.info_headers "The repository contains the following data bases:"
       else
        mgr_full.info_headers "The repository contains the following data bases:"
          ++ "\n") ++
      "\n" ++ String.intercalate "\n"
        (["alpha", "beta"].map (fun e => " - " ++ ANSI_BOLD ++ e ++ ANSI_RESET)) ∧
    mgr_err_full.show_databases.1.text = "list failed" ++ "\n" ∧
    mgr_full.show_collections.1.text =
      (if (["people", "orders"] : List String) = [] then
        mgr_full.info_headers "The repository contains the following collections:"
       else
        mgr_full.info_headers "The repository contains the following collections:"
          ++ "\n") ++
      "\n" ++ String.intercalate "\n"
        (["people", "orders"].map (fun e => " - " ++ ANSI_BOLD ++ e ++ ANSI_RESET)) ∧
    mgr_err_full.show_collections.1.text = "collections failed" ++ "\n" ∧
    mgr_full.show_elements.1.text =
      (if (["id1"] : List String) = [] then
        mgr_full.info_headers "The repository contains the following items:"
       else
        mgr_full.info_headers "The repository contains the following items:"
          ++ "\n") ++
      "\n" ++ String.intercalate "\n"
        (["id1"].map (fun e => " - " ++ ANSI_BOLD ++ e ++ ANSI_RESET)) ∧
    mgr_err_full.show_elements.1.text = "lite failed" ++ "\n" := by
  refine ⟨?_, ?_, ?_, ?_, ?_, ?_⟩
  · exact (list_rendering_rule mgr_full "alpha" "people").1 ["alpha", "beta"] rfl
  · exact (list_rendering_rule mgr_err_full "alpha" "people").2.1 "list failed" rfl
  · exact ((list_rendering_rule mgr_full "alpha" "people").2.2.1 rfl).1
      ["people", "orders"] rfl
  · exact ((list_rendering_rule mgr_err_full "alpha" "people").2.2.1 rfl).2
      "collections failed" rfl
  · exact ((list_rendering_rule mgr_full "alpha" "people").2.2.2 rfl rfl).1
      ["id1"] rfl
  · exact ((list_rendering_rule mgr_err_full "alpha" "people").2.2.2 rfl rfl).2
      "lite failed" rfl

/-- Claim C10: with the element selection set and the service query succeeding
with zero matches, SHOW_SELECTED is not an error: it renders through the
multiple-items branch, showing the Items header followed by an empty body,
and the selection context is unchanged. -/
theorem show_selected_zero_matches
    (m : ManagerDatabase) (db coll : String) (el : List String)
    (hdb : m.data_base = some db) (hc : m.collection = some coll)
    (he : m.element = some el)
    (hq : m.service.find_query db coll el = Except.ok []) :
    m.show_selected =
      (m.home (m.info_headers "Items:" ++ "\n\n"),
       [Call.find_query db coll el]) ∧
    m.show_selected.1.owner = m := by
  have hv : verify_element m = Except.ok (db, coll, el) := by
    simp [verify_element, verify_collection, verify_database, hdb, hc, he]
  constructor
  · simp [ManagerDatabase.show_selected, hv, hq, intercalate_nil,
      String.append_empty]
  · simp [ManagerDatabase.show_selected, hv, hq, ManagerDatabase.home]

/-- Instantiation of the C10 theorem on the service whose query succeeds with
zero matches. -/
theorem show_selected_zero_matches_witness :
    mgr_err_full.show_selected =
      (mgr_err_full.home (mgr_err_full.info_headers "Items:" ++ "\n\n"),
       [Call.find_query "alpha" "people" ["id1"]]) ∧
    mgr_err_full.show_selected.1.owner = mgr_err_full :=
  show_selected_zero_matches mgr_err_full "alpha" "people" ["id1"]
    rfl rfl rfl rfl
